import Mathlib

/-!
Verification of the JIRA webhook routing service
(`production/webhook-service/app/webhook_router.py`).

The Python source is shallowly embedded: the `ProjectRoute` dataclass and the
`WebhookRouter` state become Lean structures, the route-lookup loops become
`List.find?` over the insertion-ordered route list, configuration loading
becomes explicit state passing, and code that can raise a Python exception is
modelled in `Except String`.
-/

set_option autoImplicit false

namespace WebhookService

/-- The `ProjectRoute` dataclass (webhook_router.py lines 17-23).
The Python field `namespace` is a Lean keyword and is rendered `ns`. -/
structure ProjectRoute where
  name : String
  ns : String
  agentapi_url : String
  jira_projects : List String
  enabled : Bool := true
deriving DecidableEq, Repr

/-- The mutable state of a `WebhookRouter` instance: the insertion-ordered
`routes` dict (name -> route) and the optional catch-all route. -/
structure RouterState where
  routes : List (String × ProjectRoute)
  catch_all_route : Option ProjectRoute
deriving DecidableEq, Repr

/-- Model of `self.routes.values()` — Python dict iteration is in insertion order. -/
def routeValues (s : RouterState) : List ProjectRoute :=
  s.routes.map Prod.snd

/-- Model of `self.routes[k] = v` — Python dict assignment: an existing key keeps its
position and gets the new value; a new key is appended. -/
def dictInsert (m : List (String × ProjectRoute)) (k : String) (v : ProjectRoute) :
    List (String × ProjectRoute) :=
  if m.any (fun p => p.1 == k) then
    m.map (fun p => if p.1 == k then (k, v) else p)
  else
    m ++ [(k, v)]

/-- Model of `self.routes.get(k)` — dict lookup returning `none` when absent. -/
def dictFind : List (String × ProjectRoute) → String → Option ProjectRoute
  | [], _ => none
  | p :: rest, k => if p.1 == k then some p.2 else dictFind rest k

/-! ### Pattern matching (`_match_pattern`, lines 115-122)

`_match_pattern` builds a regex by `pattern.replace('*', '.*').replace('?', '.')`
and runs `re.match(f'^{regex_pattern}$', project_key, re.IGNORECASE)`.
Characters of the pattern are NOT regex-escaped, so a pattern character such as
`.` reaches the regex engine with its regex meaning.  We embed the semantics of
the regexes this translation can produce when the pattern contains no further
regex metacharacters: tokens are literal characters, `.` (any character except
newline), and `.*` (any run of non-newline characters); the trailing `$`
also accepts a single final newline, as in Python. -/

/-- One token of the translated regex. -/
inductive RTok where
  | lit (c : Char)
  | anyChar
  | anyStar
deriving DecidableEq, Repr

/-- The translation `pattern.replace('*', '.*').replace('?', '.')` read back as
regex tokens: `*` becomes `.*`, `?` becomes `.`, a literal `.` of the pattern
is already the regex any-character, every other character is kept. -/
def translateGlob : List Char → List RTok
  | [] => []
  | c :: cs =>
    (if c = '*' then RTok.anyStar
     else if c = '?' then RTok.anyChar
     else if c = '.' then RTok.anyChar
     else RTok.lit c) :: translateGlob cs

/-- Matching of the translated regex `^tokens$` against the key, with
`re.IGNORECASE` (both sides lowercased) and Python's `$` also matching just
before a single trailing newline.  `.` does not match a newline. -/
def rmatch : List RTok → List Char → Bool
  | [], ks =>
    match ks with
    | [] => true
    | [k] => k == '\n'
    | _ :: _ :: _ => false
  | RTok.lit c :: ts, ks =>
    match ks with
    | [] => false
    | k :: ks' => (c.toLower == k.toLower) && rmatch ts ks'
  | RTok.anyChar :: ts, ks =>
    match ks with
    | [] => false
    | k :: ks' => (k != '\n') && rmatch ts ks'
  | RTok.anyStar :: ts, ks =>
    rmatch ts ks ||
      (match ks with
       | [] => false
       | k :: ks' => (k != '\n') && rmatch (RTok.anyStar :: ts) ks')
termination_by ts ks => (ts.length, ks.length)

/-- Embedding of `WebhookRouter._match_pattern` (lines 115-122): the `'*'` shortcut returns
`True`; otherwise the translated regex is matched against the whole key. -/
def matchPattern (pattern key : String) : Bool :=
  if pattern = "*" then true
  else rmatch (translateGlob pattern.toList) key.toList

/-- The PATTERN-TIER SEMANTICS AS THE SPEC WORDS THEM (spec §4.1 tier 2), for
comparison with `matchPattern`: `*` is zero or more of any character, `?` is
exactly one of any character, every other character is a literal, the whole
pattern must match the whole key, case-insensitively. -/
def globMatch : List Char → List Char → Bool
  | [], ks => ks.isEmpty
  | p :: ps, ks =>
    if p = '*' then
      globMatch ps ks ||
        (match ks with
         | [] => false
         | _ :: ks' => globMatch (p :: ps) ks')
    else
      match ks with
      | [] => false
      | k :: ks' => (if p = '?' then true else p.toLower == k.toLower) && globMatch ps ks'
termination_by ps ks => (ps.length, ks.length)

/-- Spec-worded pattern match on strings. -/
def globSpecMatch (pattern key : String) : Bool :=
  globMatch pattern.toList key.toList

/-- Pattern characters that reach Python's regex engine unchanged and still
mean themselves: everything except the regex metacharacters.  (`*` and `?` are
replaced by the translation and are fine; `.` is excluded because it reaches
the engine as the any-character regex.) -/
def regexSafeChar (c : Char) : Bool :=
  !(c ∈ ['.', '\\', '+', '(', ')', '[', ']', '|', '^', '$', '\x7b', '\x7d'])

/-! ### Route lookup (`find_route_for_project`, lines 87-113) -/

/-- Embedding of `WebhookRouter.find_route_for_project`: exact tier (case-sensitive
membership of the key in `jira_projects`, disabled routes skipped), then
pattern tier (`_match_pattern` on each pattern, disabled routes skipped), then
the catch-all if present and enabled, else `None`. -/
def find_route_for_project (s : RouterState) (jira_project_key : String) :
    Option ProjectRoute :=
  match (routeValues s).find?
      (fun route => route.enabled && route.jira_projects.contains jira_project_key) with
  | some route => some route
  | none =>
    match (routeValues s).find?
        (fun route => route.enabled &&
          route.jira_projects.any (fun p => matchPattern p jira_project_key)) with
    | some route => some route
    | none =>
      match s.catch_all_route with
      | some c => if c.enabled then some c else none
      | none => none

/-! ### Configuration loading (`load_config` / `_load_from_env` / `reload_config`,
lines 32-85 and 124-129)

The YAML source is modelled as either absent (`os.path.exists` false),
unreadable (opening or parsing raises), or a parsed document.  Dict entries the
code reads with `[...]` (raising `KeyError` when absent) are `Option` fields;
entries read with `.get(..., default)` keep their defaults.  `load_config`
catches every exception itself and falls back to `_load_from_env`, so it is a
total state transformer; routes inserted before a raising entry stay inserted,
exactly as the in-place `self.routes[name] = route` mutation leaves them. -/

/-- One entry of the YAML `routes:` list. -/
structure RouteConfigData where
  name : Option String
  ns : Option String
  agentapi_url : Option String
  jira_projects : Option (List String)
  enabled : Option Bool
deriving DecidableEq, Repr

/-- The YAML `catch_all:` entry. -/
structure CatchAllConfigData where
  name : Option String
  ns : Option String
  agentapi_url : Option String
  enabled : Option Bool
deriving DecidableEq, Repr

/-- A parsed YAML document: `config.get('routes', [])` and
`config.get('catch_all')`. -/
structure ConfigData where
  routes : Option (List RouteConfigData)
  catch_all : Option CatchAllConfigData
deriving DecidableEq, Repr

/-- The configuration source seen by `load_config`. -/
inductive ConfigFile where
  | absent
  | unreadable
  | content (cfg : ConfigData)
deriving DecidableEq, Repr

/-- The two environment variables read by `_load_from_env`; `none` means the
variable is unset (so `os.getenv` returns its hard-coded default). -/
structure Env where
  DEFAULT_AGENTAPI_URL : Option String
  DEFAULT_NAMESPACE : Option String
deriving DecidableEq, Repr

/-- Embedding of `WebhookRouter._load_from_env` (lines 72-85): `os.getenv` falls back to a
hard-coded URL / namespace; the catch-all is installed only when the resulting
URL is truthy (non-empty). -/
def load_from_env (env : Env) (s : RouterState) : RouterState :=
  let default_url :=
    env.DEFAULT_AGENTAPI_URL.getD "http://claude-dev-env-service.claude-dev.svc.cluster.local:3284"
  let default_namespace := env.DEFAULT_NAMESPACE.getD "claude-dev"
  if default_url ≠ "" then
    { s with
        catch_all_route := some
          { name := "default", ns := default_namespace, agentapi_url := default_url,
            jira_projects := ["*"], enabled := true } }
  else s

/-- The `for route_config in config.get('routes', [])` loop (lines 40-49):
each fully specified entry is inserted into the dict; a missing `name`,
`namespace` or `agentapi_url` raises `KeyError`, leaving the entries inserted
so far in place.  The returned flag records whether the loop raised. -/
def load_routes_loop : RouterState → List RouteConfigData → RouterState × Bool
  | s, [] => (s, false)
  | s, rc :: rest =>
    match rc.name with
    | none => (s, true)
    | some n =>
      match rc.ns with
      | none => (s, true)
      | some nsp =>
        match rc.agentapi_url with
        | none => (s, true)
        | some url =>
          load_routes_loop
            { s with
                routes := dictInsert s.routes n
                  { name := n, ns := nsp, agentapi_url := url,
                    jira_projects := rc.jira_projects.getD [],
                    enabled := rc.enabled.getD true } }
            rest

/-- Embedding of `WebhookRouter.load_config` (lines 32-70).  The `try`/`except Exception`
catches every error and calls `_load_from_env` on whatever state the failed
load left behind; a missing file also falls back to `_load_from_env`. -/
def load_config (env : Env) (file : ConfigFile) (s : RouterState) : RouterState :=
  match file with
  | ConfigFile.absent => load_from_env env s
  | ConfigFile.unreadable => load_from_env env s
  | ConfigFile.content cfg =>
    let res := load_routes_loop s (cfg.routes.getD [])
    if res.2 then load_from_env env res.1
    else
      match cfg.catch_all with
      | none => res.1
      | some ca =>
        match ca.name, ca.ns, ca.agentapi_url with
        | some n, some nsp, some url =>
          { res.1 with
              catch_all_route := some
                { name := n, ns := nsp, agentapi_url := url,
                  jira_projects := ["*"], enabled := ca.enabled.getD true } }
        | _, _, _ => load_from_env env res.1

/-- Embedding of `WebhookRouter.reload_config` (lines 124-129): `self.routes.clear()` and
`self.catch_all_route = None` run first, then `load_config` re-runs from the
emptied state.  The previous state is discarded unconditionally. -/
def reload_config (env : Env) (file : ConfigFile) (_s : RouterState) : RouterState :=
  load_config env file { routes := [], catch_all_route := none }

/-! ### Webhook payloads and Python dict access

JSON values as the handler sees them.  `v.get(k, d)` succeeds only on a dict
(`AttributeError` otherwise, in particular on `None`); `str(v)` renders `None`
as `"None"`. -/

/-- A JSON value (the fragments the handler manipulates). -/
inductive JVal where
  | null
  | str (s : String)
  | obj (fields : List (String × JVal))
  | arr (elems : List JVal)

/-- Python dict lookup with default. -/
def dictGetJ : List (String × JVal) → String → JVal → JVal
  | [], _, dflt => dflt
  | p :: rest, k, dflt => if p.1 == k then p.2 else dictGetJ rest k dflt

/-- Model of `v.get(k, dflt)`: dicts look the key up; every other value (including
`None`) raises `AttributeError`. -/
def pyGetD (v : JVal) (k : String) (dflt : JVal) : Except String JVal :=
  match v with
  | JVal.obj fs => Except.ok (dictGetJ fs k dflt)
  | _ => Except.error "AttributeError"

/-- Python truthiness of the modelled JSON values. -/
def truthy : JVal → Bool
  | JVal.null => false
  | JVal.str s => s != ""
  | JVal.obj fs => !fs.isEmpty
  | JVal.arr xs => !xs.isEmpty

mutual
/-- Model of `repr(v)` for the modelled values (used by `str` on containers). -/
def pyRepr : JVal → String
  | JVal.null => "None"
  | JVal.str s => "\x27" ++ s ++ "\x27"
  | JVal.obj fs => "\x7b" ++ pyReprObj fs ++ "\x7d"
  | JVal.arr xs => "[" ++ pyReprArr xs ++ "]"
def pyReprObj : List (String × JVal) → String
  | [] => ""
  | [p] => "\x27" ++ p.1 ++ "\x27: " ++ pyRepr p.2
  | p :: rest => "\x27" ++ p.1 ++ "\x27: " ++ pyRepr p.2 ++ ", " ++ pyReprObj rest
def pyReprArr : List JVal → String
  | [] => ""
  | [v] => pyRepr v
  | v :: rest => pyRepr v ++ ", " ++ pyReprArr rest
end

/-- Model of `str(v)` as used by f-string / `.format` interpolation. -/
def jstr : JVal → String
  | JVal.null => "None"
  | JVal.str s => s
  | v => pyRepr v

/-- String values pass through; anything else raises where Python would raise
(`.lower()` on a non-string, or a non-string key handed to the `str`-typed
`find_route_for_project`). -/
def asPyString (v : JVal) : Except String String :=
  match v with
  | JVal.str s => Except.ok s
  | _ => Except.error "AttributeError"

/-- Iterating a Python value: lists yield elements, strings yield 1-character
strings, dicts yield their keys, `None` raises `TypeError`. -/
def pyIter : JVal → Except String (List JVal)
  | JVal.arr xs => Except.ok xs
  | JVal.str s => Except.ok (s.toList.map (fun c => JVal.str (String.singleton c)))
  | JVal.obj fs => Except.ok (fs.map (fun p => JVal.str p.1))
  | JVal.null => Except.error "TypeError"

/-! ### Event classification (lines 281-286) -/

/-- Model of `s.lower()` as a character list (`String.toLower` itself is compiled by
well-founded recursion and does not reduce definitionally). -/
def strLower (s : String) : List Char :=
  s.toList.map Char.toLower

/-- Prefix test on characters, written out. -/
def isPrefixL : List Char → List Char → Bool
  | [], _ => true
  | _ :: _, [] => false
  | n :: ns, h :: hs => (n == h) && isPrefixL ns hs

/-- Python's `needle in hay` substring test. -/
def containsSub : List Char → List Char → Bool
  | [], needle => isPrefixL needle []
  | h :: hs, needle => isPrefixL needle (h :: hs) || containsSub hs needle

/-- The three prompt templates (`CLAUDE_PROMPT_TEMPLATES`, lines 135-193). -/
inductive TemplateKey where
  | issue_created
  | issue_updated
  | issue_assigned
deriving DecidableEq, Repr

/-- Template selection (lines 281-286): `issue_created` by default,
`issue_updated` if the lowercased event name contains `"updated"`, else
`issue_assigned` if it contains `"assigned"`. -/
def classifyEvent (webhook_event : String) : TemplateKey :=
  if containsSub (strLower webhook_event) "updated".toList then
    TemplateKey.issue_updated
  else if containsSub (strLower webhook_event) "assigned".toList then
    TemplateKey.issue_assigned
  else
    TemplateKey.issue_created

/-! ### Prompt templates (lines 135-193), with the placeholders substituted -/

/-- The `issue_created` template with its placeholders filled in. -/
def issue_created_prompt (ticket_key summary description priority assignee
    project_key ticket_url : String) : String :=
  "\nNew JIRA ticket created: " ++ ticket_key ++
  "\n\nSummary: " ++ summary ++
  "\nDescription: " ++ description ++
  "\nPriority: " ++ priority ++
  "\nAssignee: " ++ assignee ++
  "\nProject: " ++ project_key ++
  "\n\nPlease:\n1. Analyze this ticket\n2. Create a branch named \x27feature/" ++
  ticket_key ++
  "\x27\n3. Set up initial project structure if needed\n4. Create a plan in CLAUDE.md for implementing this feature\n5. Start working on the implementation\n\nTicket URL: " ++
  ticket_url ++ "\n"

/-- The `issue_updated` template with its placeholders filled in. -/
def issue_updated_prompt (ticket_key summary description priority status assignee
    project_key changelog ticket_url : String) : String :=
  "\nJIRA ticket updated: " ++ ticket_key ++
  "\n\nSummary: " ++ summary ++
  "\nDescription: " ++ description ++
  "\nPriority: " ++ priority ++
  "\nStatus: " ++ status ++
  "\nAssignee: " ++ assignee ++
  "\nProject: " ++ project_key ++
  "\n\nChanges made:\n" ++ changelog ++
  "\n\nPlease:\n1. Review the changes to this ticket\n2. Update your implementation plan if needed\n3. Continue or adjust your work based on the updates\n\nTicket URL: " ++
  ticket_url ++ "\n"

/-- The `issue_assigned` template with its placeholders filled in. -/
def issue_assigned_prompt (ticket_key summary description priority assignee
    project_key ticket_url : String) : String :=
  "\nJIRA ticket assigned to you: " ++ ticket_key ++
  "\n\nSummary: " ++ summary ++
  "\nDescription: " ++ description ++
  "\nPriority: " ++ priority ++
  "\nAssignee: " ++ assignee ++
  "\nProject: " ++ project_key ++
  "\n\nPlease:\n1. Review this newly assigned ticket\n2. Create a branch named \x27feature/" ++
  ticket_key ++
  "\x27 if it doesn\x27t exist\n3. Create or update your implementation plan\n4. Begin work on the ticket\n\nTicket URL: " ++
  ticket_url ++ "\n"

/-- Model of `CLAUDE_PROMPT_TEMPLATES[template_key].format(**ticket_info)` (lines
302-303). -/
def renderTemplate (key : TemplateKey) (ticket_key summary description priority
    status assignee project_key changelog ticket_url : String) : String :=
  match key with
  | TemplateKey.issue_created =>
    issue_created_prompt ticket_key summary description priority assignee
      project_key ticket_url
  | TemplateKey.issue_updated =>
    issue_updated_prompt ticket_key summary description priority status assignee
      project_key changelog ticket_url
  | TemplateKey.issue_assigned =>
    issue_assigned_prompt ticket_key summary description priority assignee
      project_key ticket_url

/-! ### Changelog rendering (`_extract_changelog`, lines 425-437) -/

/-- The loop body of `_extract_changelog`: one `"- <field>: <from> → <to>"`
line per item, fields read with `.get` defaults `''` / `'None'` / `'None'` and
rendered through `str`. -/
def changelogLines : List JVal → Except String (List String)
  | [] => Except.ok []
  | item :: rest => do
    let field ← pyGetD item "field" (JVal.str "")
    let from_val ← pyGetD item "fromString" (JVal.str "None")
    let to_val ← pyGetD item "toString" (JVal.str "None")
    let restLines ← changelogLines rest
    Except.ok (("- " ++ jstr field ++ ": " ++ jstr from_val ++ " → " ++ jstr to_val)
      :: restLines)

/-- Embedding of `_extract_changelog(webhook_data)` (lines 425-437): reads
`changelog.items`, builds one line per item, joins with newlines, and falls
back to the fixed placeholder when no line was produced. -/
def extract_changelog (webhook_data : JVal) : Except String String := do
  let changelog ← pyGetD webhook_data "changelog" (JVal.obj [])
  let items ← pyGetD changelog "items" (JVal.arr [])
  let itemList ← pyIter items
  let changes ← changelogLines itemList
  Except.ok (if changes.isEmpty then "No specific changes detected"
             else String.intercalate "\n" changes)

/-! ### The `/jira-webhook` handler (`handle_jira_webhook`, lines 248-342),
modelled up to the point where the rendered prompt would be POSTed to the
selected route (the outbound HTTP call is an external collaborator). -/

/-- The handler's outcome: HTTP 400, an "ignored" HTTP 200, a prompt ready for
delivery to a route, or the HTTP 500 produced by the outer `except`. -/
inductive HandleResult where
  | badRequest (message : String)
  | ignored (message : String)
  | dispatch (route : ProjectRoute) (prompt : String)
  | serverError (message : String)
deriving DecidableEq, Repr

/-- The body of the `try:` block (lines 252-303) in source order: extract
event and issue, bail out on missing issue data, extract the keys, look the
route up, select the template, build `ticket_info` field by field, render the
prompt.  Any step that raises short-circuits to the outer `except`. -/
def handle_core (s : RouterState) (jira_base_url : Option String) (data : JVal) :
    Except String HandleResult := do
  let webhook_event ← pyGetD data "webhookEvent" (JVal.str "")
  let issue ← pyGetD data "issue" (JVal.obj [])
  if !truthy issue then
    Except.ok (HandleResult.ignored "No issue data in webhook")
  else do
    let fields ← pyGetD issue "fields" (JVal.obj [])
    let project ← pyGetD fields "project" (JVal.obj [])
    let project_key_v ← pyGetD project "key" (JVal.str "UNKNOWN")
    let project_key ← asPyString project_key_v
    let ticket_key ← pyGetD issue "key" (JVal.str "UNKNOWN")
    match find_route_for_project s project_key with
    | none =>
      Except.ok (HandleResult.ignored ("No route configured for project: " ++ project_key))
    | some target_route => do
      let ev ← asPyString webhook_event
      let template_key := classifyEvent ev
      let summary ← pyGetD fields "summary" (JVal.str "")
      let description ← pyGetD fields "description" (JVal.str "")
      let priority_obj ← pyGetD fields "priority" (JVal.obj [])
      let priority ← pyGetD priority_obj "name" (JVal.str "None")
      let status_obj ← pyGetD fields "status" (JVal.obj [])
      let status ← pyGetD status_obj "name" (JVal.str "Unknown")
      let assignee_cond ← pyGetD fields "assignee" JVal.null
      let assignee ←
        if truthy assignee_cond then do
          let assignee_obj ← pyGetD fields "assignee" (JVal.obj [])
          pyGetD assignee_obj "displayName" (JVal.str "Unassigned")
        else
          Except.ok (JVal.str "Unassigned")
      let ticket_url :=
        (jira_base_url.getD "https://your-jira.atlassian.net") ++ "/browse/" ++ jstr ticket_key
      let changelog ←
        if containsSub (strLower ev) "updated".toList then extract_changelog data
        else Except.ok ""
      let prompt := renderTemplate template_key (jstr ticket_key) (jstr summary)
        (jstr description) (jstr priority) (jstr status) (jstr assignee)
        project_key changelog ticket_url
      Except.ok (HandleResult.dispatch target_route prompt)

/-- Embedding of `handle_jira_webhook` (lines 248-342): `None`/falsy JSON gives the 400,
and every exception from the body surfaces as the outer `except`'s 500. -/
def handle_jira_webhook (s : RouterState) (jira_base_url : Option String)
    (data : Option JVal) : HandleResult :=
  match data with
  | none => HandleResult.badRequest "No JSON data provided"
  | some d =>
    if !truthy d then HandleResult.badRequest "No JSON data provided"
    else
      match handle_core s jira_base_url d with
      | Except.ok r => r
      | Except.error e => HandleResult.serverError e

/-! ### The `/trigger-claude` handler (`trigger_claude_manual`, lines 344-380) -/

/-- The outcome of `/trigger-claude` up to the outbound POST. -/
inductive TriggerResult where
  | badRequest (message : String)
  | noRoute
  | dispatch (route : ProjectRoute) (content : JVal)

/-- Embedding of `trigger_claude_manual` (lines 344-380): read `prompt` and `project` with
`.get`, reject an empty prompt, look the route up BY NAME (the `enabled` flag
is never consulted), fall back to the catch-all (again without consulting
`enabled`), and deliver the raw prompt. -/
def trigger_claude_manual (s : RouterState) (data : Option JVal) :
    Except String TriggerResult := do
  match data with
  | none => Except.error "AttributeError"
  | some d => do
    let prompt ← pyGetD d "prompt" (JVal.str "")
    let project_name ← pyGetD d "project" (JVal.str "")
    if !truthy prompt then
      Except.ok (TriggerResult.badRequest "No prompt provided")
    else
      let target : Option ProjectRoute :=
        if truthy project_name then
          match project_name with
          | JVal.str p => dictFind s.routes p
          | _ => none
        else none
      let target2 : Option ProjectRoute :=
        match target with
        | none => s.catch_all_route
        | some r => some r
      match target2 with
      | none => Except.ok TriggerResult.noRoute
      | some r => Except.ok (TriggerResult.dispatch r prompt)

/-! ### Table modifications used to state the `enabled`-flag claim -/

/-- Set `enabled = False` on the route stored under name `n`. -/
def disableRoute (s : RouterState) (n : String) : RouterState :=
  { s with
      routes := s.routes.map (fun p => if p.1 = n then (p.1, { p.2 with enabled := false }) else p) }

/-- Delete the route stored under name `n`. -/
def removeRoute (s : RouterState) (n : String) : RouterState :=
  { s with routes := s.routes.filter (fun p => p.1 != n) }

/-! ### Structured changelog items used to state the `_extract_changelog` claim -/

/-- A changelog item that carries a field name and optional from/to values. -/
structure ChItem where
  field : String
  fromS : Option String
  toS : Option String

/-- An optional string entry of an item dict. -/
def optEntry (k : String) : Option String → List (String × JVal)
  | some v => [(k, JVal.str v)]
  | none => []

/-- The JSON dict of a changelog item. -/
def mkItem (i : ChItem) : JVal :=
  JVal.obj (("field", JVal.str i.field) :: (optEntry "fromString" i.fromS ++ optEntry "toString" i.toS))

/-- A webhook payload whose changelog consists of the given items. -/
def mkChangelogPayload (its : List ChItem) : JVal :=
  JVal.obj [("changelog", JVal.obj [("items", JVal.arr (its.map mkItem))])]

/-- The line the spec prescribes for one changelog item. -/
def chLine (i : ChItem) : String :=
  "- " ++ i.field ++ ": " ++ i.fromS.getD "None" ++ " → " ++ i.toS.getD "None"

/-! ### Concrete fixtures used by the counterexamples and witnesses -/

/-- A route matching key `"XY"` exactly. -/
def routeA : ProjectRoute :=
  { name := "a", ns := "na", agentapi_url := "ua", jira_projects := ["XY"], enabled := true }

/-- A route whose pattern set holds `"XY"` exactly AND the wildcard `"X*"`. -/
def routeB : ProjectRoute :=
  { name := "b", ns := "nb", agentapi_url := "ub", jira_projects := ["XY", "X*"], enabled := true }

/-- A route that matches `"XY"` only through the wildcard `"X*"`. -/
def routeBwild : ProjectRoute :=
  { name := "b", ns := "nb", agentapi_url := "ub", jira_projects := ["X*"], enabled := true }

/-- Table with `routeB` inserted before `routeA`. -/
def tableBA : RouterState := { routes := [("b", routeB), ("a", routeA)], catch_all_route := none }

/-- Table with `routeA` inserted before `routeB`. -/
def tableAB : RouterState := { routes := [("a", routeA), ("b", routeB)], catch_all_route := none }

/-- Table with `routeBwild` inserted before `routeA`. -/
def tableWild : RouterState :=
  { routes := [("b", routeBwild), ("a", routeA)], catch_all_route := none }

/-- The catch-all `_load_from_env` builds when both variables are unset. -/
def envDefaultRoute : ProjectRoute :=
  { name := "default", ns := "claude-dev",
    agentapi_url := "http://claude-dev-env-service.claude-dev.svc.cluster.local:3284",
    jira_projects := ["*"], enabled := true }

/-- Environment with neither variable set. -/
def envUnset : Env := { DEFAULT_AGENTAPI_URL := none, DEFAULT_NAMESPACE := none }

/-- Environment with both variables set. -/
def envSet : Env :=
  { DEFAULT_AGENTAPI_URL := some "http://agent.example", DEFAULT_NAMESPACE := some "team-ns" }

/-- A router state holding one route and a catch-all, from before a reload. -/
def c3_prev : RouterState :=
  { routes := [("proj-a", routeA)], catch_all_route := some routeB }

/-- A readable configuration whose single route entry lacks `agentapi_url`,
so loading it raises `KeyError` partway. -/
def c3_badfile : ConfigFile :=
  ConfigFile.content
    { routes := some [{ name := some "x", ns := some "nsx", agentapi_url := none,
                        jira_projects := none, enabled := none }],
      catch_all := none }

/-- A state with no routes and only the enabled environment catch-all. -/
def catchOnlyState : RouterState := { routes := [], catch_all_route := some envDefaultRoute }

/-- The webhook payload of the C4 scenario: an issue whose `priority` and
`assignee` are present but `null`. -/
def c4_payload : JVal :=
  JVal.obj [("webhookEvent", JVal.str "jira:issue_created"),
            ("issue", JVal.obj [("key", JVal.str "PROJ-1"),
              ("fields", JVal.obj [("project", JVal.obj [("key", JVal.str "PROJ")]),
                ("summary", JVal.str "Fix bug"),
                ("priority", JVal.null),
                ("assignee", JVal.null)])])]

/-- A disabled route with a wildcard pattern. -/
def c7_route : ProjectRoute :=
  { name := "p", ns := "n", agentapi_url := "u", jira_projects := ["Q*"], enabled := false }

/-- One disabled route plus the enabled environment catch-all. -/
def c7_state : RouterState :=
  { routes := [("p", c7_route)], catch_all_route := some envDefaultRoute }

/-- A disabled route stored under name `"p"`. -/
def c10_route : ProjectRoute :=
  { name := "p", ns := "n", agentapi_url := "u", jira_projects := [], enabled := false }

/-- A disabled catch-all. -/
def c10_catch : ProjectRoute :=
  { name := "c", ns := "n2", agentapi_url := "u2", jira_projects := ["*"], enabled := false }

/-- A table whose only route and whose catch-all are both disabled. -/
def c10_state : RouterState :=
  { routes := [("p", c10_route)], catch_all_route := some c10_catch }

/-! ## Helper lemmas -/

/-- Lemma: `isPrefixL` is the prefix relation. -/
theorem isPrefixL_iff (ns : List Char) : ∀ hs : List Char,
    isPrefixL ns hs = true ↔ ∃ rest, hs = ns ++ rest := by
  induction ns with
  | nil => intro hs; simp [isPrefixL]
  | cons n ns ih =>
    intro hs
    cases hs with
    | nil => simp [isPrefixL]
    | cons h hs =>
      simp only [isPrefixL, Bool.and_eq_true, beq_iff_eq, ih, List.cons_append]
      constructor
      · rintro ⟨rfl, rest, rfl⟩
        exact ⟨rest, rfl⟩
      · rintro ⟨rest, heq⟩
        injection heq with h1 h2
        exact ⟨h1.symm, rest, h2⟩

/-- Lemma: `containsSub` is Python substring containment. -/
theorem containsSub_iff (hay needle : List Char) :
    containsSub hay needle = true ↔ ∃ pre post, hay = pre ++ needle ++ post := by
  induction hay with
  | nil =>
    simp only [containsSub, isPrefixL_iff]
    constructor
    · rintro ⟨rest, heq⟩
      exact ⟨[], rest, by simpa using heq⟩
    · rintro ⟨pre, post, heq⟩
      have hn : needle = [] := by
        have h0 := heq.symm
        simp only [List.append_eq_nil] at h0
        exact h0.1.2
      exact ⟨[], by simp [hn]⟩
  | cons h hs ih =>
    simp only [containsSub, Bool.or_eq_true, isPrefixL_iff, ih]
    constructor
    · rintro (⟨rest, heq⟩ | ⟨pre, post, heq⟩)
      · exact ⟨[], rest, by simpa using heq⟩
      · exact ⟨h :: pre, post, by simp [heq]⟩
    · rintro ⟨pre, post, heq⟩
      cases pre with
      | nil => exact Or.inl ⟨post, by simpa using heq⟩
      | cons a pre =>
        injection heq with h1 h2
        exact Or.inr ⟨pre, post, h2⟩

/-- The spec-worded `*` alone matches every key. -/
theorem globMatch_star : ∀ ks : List Char, globMatch ['*'] ks = true
  | [] => by simp [globMatch]
  | k :: ks => by
    have ih := globMatch_star ks
    simp [globMatch, ih]

/-- On patterns free of further regex metacharacters and keys without newline
characters, the regex produced by `_match_pattern`'s translation agrees with
the spec's anchored case-insensitive glob semantics. -/
theorem rmatch_translateGlob : ∀ (ps ks : List Char),
    ps.all regexSafeChar = true → ks.all (fun c => c != '\n') = true →
    rmatch (translateGlob ps) ks = globMatch ps ks
  | [], ks, _, hk => by
    cases ks with
    | nil => simp [translateGlob, rmatch, globMatch]
    | cons k ks =>
      simp only [List.all_cons, Bool.and_eq_true] at hk
      cases ks with
      | nil =>
        have hkn : (k == '\n') = false := by simpa using hk.1
        simp [translateGlob, rmatch, globMatch, hkn]
      | cons k2 ks => simp [translateGlob, rmatch, globMatch]
  | p :: ps, ks, hp, hk => by
    simp only [List.all_cons, Bool.and_eq_true] at hp
    obtain ⟨hpc, hps⟩ := hp
    by_cases hstar : p = '*'
    · subst hstar
      cases ks with
      | nil =>
        have ih := rmatch_translateGlob ps [] hps (by simp)
        simp [translateGlob, rmatch, globMatch, ih]
      | cons k ks =>
        simp only [List.all_cons, Bool.and_eq_true] at hk
        have ih1 := rmatch_translateGlob ps (k :: ks)
          hps (by simp only [List.all_cons, Bool.and_eq_true]; exact hk)
        have ih2 := rmatch_translateGlob ('*' :: ps) ks
          (by simp only [List.all_cons, Bool.and_eq_true]
              exact ⟨by decide, hps⟩) hk.2
        simp [translateGlob] at ih2
        simp [translateGlob, rmatch, globMatch, ih1, ih2, hk.1]
    · by_cases hq : p = '?'
      · subst hq
        cases ks with
        | nil => simp [translateGlob, rmatch, globMatch, hstar]
        | cons k ks =>
          simp only [List.all_cons, Bool.and_eq_true] at hk
          have ih := rmatch_translateGlob ps ks hps hk.2
          simp [translateGlob, rmatch, globMatch, hstar, ih, hk.1]
      · have hdot : ¬p = '.' := by
          intro hd
          rw [hd] at hpc
          simp [regexSafeChar] at hpc
        cases ks with
        | nil => simp [translateGlob, rmatch, globMatch, hstar, hq, hdot]
        | cons k ks =>
          simp only [List.all_cons, Bool.and_eq_true] at hk
          have ih := rmatch_translateGlob ps ks hps hk.2
          simp [translateGlob, rmatch, globMatch, hstar, hq, hdot, ih]
termination_by ps ks _ _ => (ps.length, ks.length)

/-! ## C2 — pattern-tier semantics -/

/-- C2 counterexample: the claim says every non-wildcard pattern character is
matched literally, but `_match_pattern` never regex-escapes the pattern, so
the pattern `"a.c"` matches the key `"abc"` (the `.` reaches the regex engine
as the any-character), while the claimed glob semantics rejects it. -/
theorem c2_counterexample :
    matchPattern "a.c" "abc" = true ∧ globSpecMatch "a.c" "abc" = false := by
  constructor
  · simp [matchPattern, translateGlob, rmatch]
  · simp [globSpecMatch, globMatch]

/-- C2 amended: for every pattern whose characters avoid the regex
metacharacters (`.` `\` `+` `(` `)` `[` `]` `|` `^` `$` and braces — `*` and
`?` are fine) and every key without a newline character, `_match_pattern`
agrees exactly with the spec's anchored, case-insensitive glob semantics. -/
theorem c2_amended_glob_equiv (pattern key : String)
    (hp : pattern.toList.all regexSafeChar = true)
    (hk : key.toList.all (fun c => c != '\n') = true) :
    matchPattern pattern key = globSpecMatch pattern key := by
  by_cases hstar : pattern = "*"
  · subst hstar
    have h1 : globSpecMatch "*" key = true := globMatch_star key.toList
    simp [matchPattern, h1]
  · rw [matchPattern, if_neg hstar, globSpecMatch]
    exact rmatch_translateGlob _ _ hp hk

/-- C2 witness: the spec's own example `"proj-*"` vs `"PROJ-123"` is in the
regex-safe fragment, and there the code and the spec semantics agree. -/
theorem c2_witness :
    ("proj-*".toList.all regexSafeChar = true) ∧
    matchPattern "proj-*" "PROJ-123" = globSpecMatch "proj-*" "PROJ-123" :=
  ⟨by decide, c2_amended_glob_equiv "proj-*" "PROJ-123" (by decide) (by decide)⟩

/-! ## C8 — event classification -/

/-- C8: classification is a case-insensitive substring match, `"updated"`
checked before `"assigned"`, default `issue_created` — stated against the
mathematical substring relation (a decomposition of the lowercased event
name). -/
theorem c8_classify_substring (e : String) :
    ((∃ pre post, e.toList.map Char.toLower = pre ++ "updated".toList ++ post) →
        classifyEvent e = TemplateKey.issue_updated) ∧
    ((¬∃ pre post, e.toList.map Char.toLower = pre ++ "updated".toList ++ post) →
      (∃ pre post, e.toList.map Char.toLower = pre ++ "assigned".toList ++ post) →
        classifyEvent e = TemplateKey.issue_assigned) ∧
    ((¬∃ pre post, e.toList.map Char.toLower = pre ++ "updated".toList ++ post) →
      (¬∃ pre post, e.toList.map Char.toLower = pre ++ "assigned".toList ++ post) →
        classifyEvent e = TemplateKey.issue_created) := by
  have hU := containsSub_iff (strLower e) "updated".toList
  have hA := containsSub_iff (strLower e) "assigned".toList
  refine ⟨?_, ?_, ?_⟩
  · intro h
    have h1 : containsSub (strLower e) "updated".toList = true := hU.mpr h
    unfold classifyEvent
    rw [h1]
    simp
  · intro hnu ha
    have h1 : containsSub (strLower e) "updated".toList = false := by
      cases hcu : containsSub (strLower e) "updated".toList
      · rfl
      · exact absurd (hU.mp hcu) hnu
    have h2 : containsSub (strLower e) "assigned".toList = true := hA.mpr ha
    unfold classifyEvent
    rw [h1, h2]
    simp
  · intro hnu hna
    have h1 : containsSub (strLower e) "updated".toList = false := by
      cases hcu : containsSub (strLower e) "updated".toList
      · rfl
      · exact absurd (hU.mp hcu) hnu
    have h2 : containsSub (strLower e) "assigned".toList = false := by
      cases hca : containsSub (strLower e) "assigned".toList
      · rfl
      · exact absurd (hA.mp hca) hna
    unfold classifyEvent
    rw [h1, h2]
    simp

/-- C8 witness: `classify("jira:issue_updated")` is `Updated`. -/
theorem c8_witness :
    classifyEvent "jira:issue_updated" = TemplateKey.issue_updated :=
  (c8_classify_substring "jira:issue_updated").1 ⟨"jira:issue_".toList, [], by decide⟩

/-- Reduction of `Except` bind on a success value. -/
theorem except_ok_bind {α β : Type} (a : α) (f : α → Except String β) :
    (Except.ok a >>= f : Except String β) = f a := rfl

/-- Reduction of `Except` bind on an error value. -/
theorem except_error_bind {α β : Type} (e : String) (f : α → Except String β) :
    (Except.error e >>= f : Except String β) = Except.error e := rfl

/-- List `find?` returns the element when it is the unique satisfier. -/
theorem find?_unique {α : Type} (p : α → Bool) (a : α) (l : List α)
    (ha : a ∈ l) (hpa : p a = true)
    (huniq : ∀ b ∈ l, p b = true → b = a) : l.find? p = some a := by
  have hs : (l.find? p).isSome := List.find?_isSome.mpr ⟨a, ha, hpa⟩
  obtain ⟨b, hb⟩ := Option.isSome_iff_exists.mp hs
  have hba := huniq b (List.mem_of_find?_eq_some hb) (List.find?_some hb)
  rw [hb, hba]

/-- For predicates that require `enabled`, disabling a named route changes
`find?` over the route values exactly as deleting it does. -/
theorem find?_disable_eq_remove (n : String) (q : ProjectRoute → Bool) :
    ∀ l : List (String × ProjectRoute),
    ((l.map (fun p => if p.1 = n then (p.1, { p.2 with enabled := false }) else p)).map
        Prod.snd).find? (fun r => r.enabled && q r) =
    ((l.filter (fun p => p.1 != n)).map Prod.snd).find? (fun r => r.enabled && q r) := by
  intro l
  induction l with
  | nil => rfl
  | cons p l ih =>
    by_cases hp : p.1 = n
    · have hf : (p.1 != n) = false := by simp [hp]
      simp only [List.map_cons, if_pos hp, List.filter_cons, hf, Bool.false_eq_true,
        if_false]
      rw [List.find?_cons_of_neg _ (by simp)]
      exact ih
    · have hf : (p.1 != n) = true := by simp [hp]
      simp only [List.map_cons, if_neg hp, List.filter_cons, hf, if_true]
      cases hq : p.2.enabled && q p.2 with
      | true => simp only [List.find?_cons, hq]
      | false =>
        simp only [List.find?_cons, hq]
        exact ih

/-! ## C6 — disabled routes are invisible to lookup -/

/-- C6: (1) any route `lookup` returns is enabled; (2) disabling a named route
gives the same lookup results as deleting it, on every key. -/
theorem c6_disabled_invisible :
    (∀ (s : RouterState) (k : String) (r : ProjectRoute),
        find_route_for_project s k = some r → r.enabled = true) ∧
    (∀ (s : RouterState) (n k : String),
        find_route_for_project (disableRoute s n) k =
          find_route_for_project (removeRoute s n) k) := by
  constructor
  · intro s k r h
    unfold find_route_for_project at h
    split at h
    next r1 heq =>
      cases h
      have h2 := List.find?_some heq
      simp only [Bool.and_eq_true] at h2
      exact h2.1
    next =>
      split at h
      next r2 heq2 =>
        cases h
        have h2 := List.find?_some heq2
        simp only [Bool.and_eq_true] at h2
        exact h2.1
      next =>
        split at h
        next c hc =>
          split at h
          next hce =>
            cases h
            exact hce
          next => cases h
        next => cases h
  · intro s n k
    unfold find_route_for_project
    have h1 := find?_disable_eq_remove n
      (fun r => r.jira_projects.contains k) s.routes
    have h2 := find?_disable_eq_remove n
      (fun r => r.jira_projects.any (fun p => matchPattern p k)) s.routes
    simp only [disableRoute, removeRoute, routeValues] at h1 h2 ⊢
    rw [h1, h2]

/-- C6 witness: on a table whose only route source is an enabled catch-all,
lookup returns it, and by the theorem the returned route is enabled. -/
theorem c6_witness :
    find_route_for_project catchOnlyState "ZZZ" = some envDefaultRoute ∧
    envDefaultRoute.enabled = true :=
  ⟨rfl, c6_disabled_invisible.1 catchOnlyState "ZZZ" envDefaultRoute rfl⟩

/-! ## C7 — catch-all tier -/

/-- C7: when no enabled route matches in the exact or pattern tier, lookup
returns the catch-all iff it exists and is enabled, and `none` otherwise; in
particular a table with zero enabled routes and no catch-all yields `none` for
every key. -/
theorem c7_catch_all_tier (s : RouterState) (k : String) :
    ((∀ r ∈ routeValues s, r.enabled = true → r.jira_projects.contains k = false) →
     (∀ r ∈ routeValues s, r.enabled = true →
        r.jira_projects.any (fun p => matchPattern p k) = false) →
      (∀ c, s.catch_all_route = some c → c.enabled = true →
          find_route_for_project s k = some c) ∧
      (∀ c, s.catch_all_route = some c → c.enabled = false →
          find_route_for_project s k = none) ∧
      (s.catch_all_route = none → find_route_for_project s k = none)) ∧
    ((∀ r ∈ routeValues s, r.enabled = false) → s.catch_all_route = none →
      find_route_for_project s k = none) := by
  constructor
  · intro hex hpat
    have h1 : (routeValues s).find?
        (fun route => route.enabled && route.jira_projects.contains k) = none := by
      rw [List.find?_eq_none]
      intro r hr hpr
      simp only [Bool.and_eq_true] at hpr
      rw [hex r hr hpr.1] at hpr
      exact absurd hpr.2 (by simp)
    have h2 : (routeValues s).find?
        (fun route => route.enabled &&
          route.jira_projects.any (fun p => matchPattern p k)) = none := by
      rw [List.find?_eq_none]
      intro r hr hpr
      simp only [Bool.and_eq_true] at hpr
      rw [hpat r hr hpr.1] at hpr
      exact absurd hpr.2 (by simp)
    refine ⟨?_, ?_, ?_⟩
    · intro c hc hce
      unfold find_route_for_project
      rw [h1, h2, hc]
      simp [hce]
    · intro c hc hce
      unfold find_route_for_project
      rw [h1, h2, hc]
      simp [hce]
    · intro hc
      unfold find_route_for_project
      rw [h1, h2, hc]
  · intro hall hc
    have h1 : (routeValues s).find?
        (fun route => route.enabled && route.jira_projects.contains k) = none := by
      rw [List.find?_eq_none]
      intro r hr hpr
      simp only [Bool.and_eq_true] at hpr
      rw [hall r hr] at hpr
      exact absurd hpr.1 (by simp)
    have h2 : (routeValues s).find?
        (fun route => route.enabled &&
          route.jira_projects.any (fun p => matchPattern p k)) = none := by
      rw [List.find?_eq_none]
      intro r hr hpr
      simp only [Bool.and_eq_true] at hpr
      rw [hall r hr] at hpr
      exact absurd hpr.1 (by simp)
    unfold find_route_for_project
    rw [h1, h2, hc]

/-- C7 witness: with the only route disabled and an enabled catch-all, the
catch-all is returned for a key its own wildcard would match. -/
theorem c7_witness : find_route_for_project c7_state "Q" = some envDefaultRoute := by
  have hex : ∀ r ∈ routeValues c7_state, r.enabled = true →
      r.jira_projects.contains "Q" = false := by
    intro r hr he
    have hr' : r = c7_route := by
      simpa [c7_state, routeValues] using hr
    rw [hr'] at he
    exact absurd he (by decide)
  have hpat : ∀ r ∈ routeValues c7_state, r.enabled = true →
      r.jira_projects.any (fun p => matchPattern p "Q") = false := by
    intro r hr he
    have hr' : r = c7_route := by
      simpa [c7_state, routeValues] using hr
    rw [hr'] at he
    exact absurd he (by decide)
  exact ((c7_catch_all_tier c7_state "Q").1 hex hpat).1 envDefaultRoute rfl rfl

/-! ## C1 — tier precedence (exact before pattern) -/

/-- C1 counterexample: `"XY"` is an exact member of `routeA`'s pattern set and
matches `routeB`'s wildcard `"X*"`, yet lookup returns `routeB` when `routeB`
was inserted first — because `"XY"` is ALSO an exact member of `routeB`'s
pattern set, and exact-tier ties go to insertion order.  The claim's "A is
returned regardless of insertion order" is therefore false as stated. -/
theorem c1_counterexample :
    routeA.enabled = true ∧ routeB.enabled = true ∧
    routeA.jira_projects.contains "XY" = true ∧
    ("X*" ∈ routeB.jira_projects ∧ "X*".toList.contains '*' = true ∧
      matchPattern "X*" "XY" = true) ∧
    find_route_for_project tableBA "XY" = some routeB ∧
    find_route_for_project tableAB "XY" = some routeA ∧
    routeB ≠ routeA := by
  refine ⟨rfl, rfl, rfl, ⟨by decide, by decide, ?_⟩, rfl, rfl, by decide⟩
  simp [matchPattern, translateGlob, rmatch]

/-- C1 amended: if additionally the key is an exact member of NO other enabled
route's pattern set (in particular not of B's), then lookup returns A
regardless of insertion order. -/
theorem c1_amended_exact_tier_precedence (s : RouterState) (k : String)
    (A : ProjectRoute) (hA : A ∈ routeValues s) (hAe : A.enabled = true)
    (hAk : A.jira_projects.contains k = true)
    (huniq : ∀ r ∈ routeValues s, r.enabled = true →
        r.jira_projects.contains k = true → r = A)
    (_hB : ∃ B ∈ routeValues s, B.enabled = true ∧
        ∃ p ∈ B.jira_projects, p.toList.contains '*' = true ∧ matchPattern p k = true) :
    find_route_for_project s k = some A := by
  have hfind : (routeValues s).find?
      (fun route => route.enabled && route.jira_projects.contains k) = some A := by
    apply find?_unique _ _ _ hA
      (by show (A.enabled && A.jira_projects.contains k) = true; rw [hAe, hAk]; rfl)
    intro b hb hpb
    simp only [Bool.and_eq_true] at hpb
    exact huniq b hb hpb.1 hpb.2
  unfold find_route_for_project
  rw [hfind]

/-- C1 witness: with the wildcard on `routeBwild` only (`"XY"` exactly matches
only `routeA`), the exact match wins even though `routeBwild` comes first. -/
theorem c1_witness :
    find_route_for_project tableWild "XY" = some routeA :=
  c1_amended_exact_tier_precedence tableWild "XY" routeA
    (by decide) rfl rfl (by decide)
    ⟨routeBwild, by decide, by decide,
      "X*", by decide, by decide, by simp [matchPattern, translateGlob, rmatch]⟩

/-! ## C3 — reload failure behaviour -/

/-- C3: reloading against a config whose load raises `KeyError` CLEARS the old
table first, never lets the error reach the caller (`load_config` catches it
and installs the environment fallback), and so the routes and catch-all the
next lookup sees are NOT the previous ones: the old route and catch-all are
gone and the hard-coded environment catch-all is in place. -/
theorem c3_reload_clears_and_swallows :
    reload_config envUnset c3_badfile c3_prev =
      { routes := [], catch_all_route := some envDefaultRoute } ∧
    c3_prev.routes ≠ [] ∧
    c3_prev.catch_all_route ≠ some envDefaultRoute := by
  refine ⟨rfl, by decide, by decide⟩

/-! ## C4 — null optional fields in the dispatcher -/

/-- C4: on a payload with `priority: null` and `assignee: null` the extraction
does NOT render the documented defaults: `fields.get('priority', {})` returns
`None` and `.get('name', 'None')` on it raises `AttributeError`, which the
outer `except` converts into the 500 error result — no prompt containing
"Priority: None" is ever built. -/
theorem c4_null_priority_crashes :
    handle_jira_webhook catchOnlyState none (some c4_payload) =
      HandleResult.serverError "AttributeError" ∧
    (∀ r p, handle_jira_webhook catchOnlyState none (some c4_payload) ≠
        HandleResult.dispatch r p) := by
  refine ⟨rfl, ?_⟩
  intro r p h
  rw [show handle_jira_webhook catchOnlyState none (some c4_payload) =
      HandleResult.serverError "AttributeError" from rfl] at h
  cases h

/-! ## C5 — environment fallback -/

/-- C5 counterexample: with `DEFAULT_AGENTAPI_URL` not configured in the
environment, loading from an absent file does NOT leave `catchAll` unset — the
hard-coded default URL is used and a catch-all is installed. -/
theorem c5_counterexample :
    envUnset.DEFAULT_AGENTAPI_URL = none ∧
    (load_config envUnset ConfigFile.absent
        { routes := [], catch_all_route := none }).catch_all_route =
      some envDefaultRoute := ⟨rfl, rfl⟩

/-- C5 amended: on an absent or unreadable source, load never crashes and
builds the single catch-all from the environment values when the endpoint
variable is set non-empty; an UNSET variable falls back to a hard-coded URL
(so the catch-all is still built); only an endpoint set to the EMPTY string
leaves the state untouched — in particular `catchAll` unset and `routes`
empty when starting from the empty state. -/
theorem c5_amended_env_fallback (env : Env) (file : ConfigFile) (s : RouterState)
    (hfile : file = ConfigFile.absent ∨ file = ConfigFile.unreadable) :
    (∀ url, env.DEFAULT_AGENTAPI_URL = some url → url ≠ "" →
        load_config env file s =
          { s with
              catch_all_route := some
                { name := "default", ns := env.DEFAULT_NAMESPACE.getD "claude-dev",
                  agentapi_url := url, jira_projects := ["*"], enabled := true } }) ∧
    (env.DEFAULT_AGENTAPI_URL = none →
        load_config env file s =
          { s with
              catch_all_route := some
                { name := "default", ns := env.DEFAULT_NAMESPACE.getD "claude-dev",
                  agentapi_url :=
                    "http://claude-dev-env-service.claude-dev.svc.cluster.local:3284",
                  jira_projects := ["*"], enabled := true } }) ∧
    (env.DEFAULT_AGENTAPI_URL = some "" → load_config env file s = s) := by
  have hload : load_config env file s = load_from_env env s := by
    rcases hfile with rfl | rfl <;> rfl
  rw [hload]
  refine ⟨?_, ?_, ?_⟩
  · intro url hu hne
    unfold load_from_env
    rw [hu]
    simp [hne]
  · intro hu
    unfold load_from_env
    rw [hu]
    simp
  · intro hu
    unfold load_from_env
    rw [hu]
    simp

/-- C5 witness: with both variables set, an absent config file yields exactly
the catch-all built from the environment values. -/
theorem c5_witness :
    load_config envSet ConfigFile.absent { routes := [], catch_all_route := none } =
      { routes := [],
        catch_all_route := some
          { name := "default", ns := "team-ns", agentapi_url := "http://agent.example",
            jira_projects := ["*"], enabled := true } } :=
  (c5_amended_env_fallback envSet ConfigFile.absent
      { routes := [], catch_all_route := none } (Or.inl rfl)).1
    "http://agent.example" rfl (by decide)

/-! ## C9 — changelog rendering -/

/-- The loop produces exactly one line per item, with the `.get` defaults. -/
theorem changelogLines_map (l : List ChItem) :
    changelogLines (l.map mkItem) = Except.ok (l.map chLine) := by
  induction l with
  | nil => rfl
  | cons i rest ih =>
    cases hf : i.fromS <;> cases ht : i.toS <;>
      simp [changelogLines, mkItem, optEntry, pyGetD, dictGetJ, jstr, hf, ht, ih, chLine,
        except_ok_bind]

/-- C9: `_extract_changelog` yields one `"- <field>: <from> → <to>"` line per
item (missing from/to rendering as `"None"`), joined by newlines, and exactly
the fixed placeholder when there are no items. -/
theorem c9_render_changelog (its : List ChItem) :
    extract_changelog (mkChangelogPayload its) =
      Except.ok (match its with
        | [] => "No specific changes detected"
        | _ :: _ => String.intercalate "\n" (its.map chLine)) := by
  unfold extract_changelog mkChangelogPayload
  simp [pyGetD, dictGetJ, pyIter, changelogLines_map its, except_ok_bind]
  cases its with
  | nil => rfl
  | cons i rest => simp

/-! ## C10 — `/trigger-claude` ignores the enabled flag -/

/-- C10: the manual endpoint selects the route stored under the requested
name, or else the catch-all, without ever consulting `enabled` — the
conclusion holds for every route value, disabled ones included. -/
theorem c10_trigger_ignores_enabled (s : RouterState) (prompt project : String)
    (hp : prompt ≠ "") :
    (∀ r, project ≠ "" → dictFind s.routes project = some r →
        trigger_claude_manual s (some (JVal.obj
            [("prompt", JVal.str prompt), ("project", JVal.str project)])) =
          Except.ok (TriggerResult.dispatch r (JVal.str prompt))) ∧
    ((project = "" ∨ dictFind s.routes project = none) →
      ∀ c, s.catch_all_route = some c →
        trigger_claude_manual s (some (JVal.obj
            [("prompt", JVal.str prompt), ("project", JVal.str project)])) =
          Except.ok (TriggerResult.dispatch c (JVal.str prompt))) := by
  have hpt : truthy (JVal.str prompt) = true := by simp [truthy, hp]
  constructor
  · intro r hproj hfind
    have hprj : truthy (JVal.str project) = true := by simp [truthy, hproj]
    unfold trigger_claude_manual
    simp [pyGetD, dictGetJ, hpt, hprj, hfind, except_ok_bind]
  · intro hcase c hc
    rcases hcase with hproj | hfind
    · subst hproj
      unfold trigger_claude_manual
      simp [pyGetD, dictGetJ, hpt, truthy, hc, except_ok_bind, hp]
    · by_cases hproj : project = ""
      · subst hproj
        unfold trigger_claude_manual
        simp [pyGetD, dictGetJ, hpt, truthy, hc, except_ok_bind, hp]
      · have hprj : truthy (JVal.str project) = true := by simp [truthy, hproj]
        unfold trigger_claude_manual
        simp [pyGetD, dictGetJ, hpt, hprj, hfind, hc, except_ok_bind]

/-- C10 witness: a disabled route is selected by name; when the name misses,
the disabled catch-all is used. -/
theorem c10_witness :
    c10_route.enabled = false ∧ c10_catch.enabled = false ∧
    trigger_claude_manual c10_state (some (JVal.obj
        [("prompt", JVal.str "do"), ("project", JVal.str "p")])) =
      Except.ok (TriggerResult.dispatch c10_route (JVal.str "do")) ∧
    trigger_claude_manual c10_state (some (JVal.obj
        [("prompt", JVal.str "do"), ("project", JVal.str "missing")])) =
      Except.ok (TriggerResult.dispatch c10_catch (JVal.str "do")) :=
  ⟨rfl, rfl,
    (c10_trigger_ignores_enabled c10_state "do" "p" (by decide)).1
      c10_route (by decide) rfl,
    (c10_trigger_ignores_enabled c10_state "do" "missing" (by decide)).2
      (Or.inr rfl) c10_catch rfl⟩

end WebhookService
